import Mathlib

/-!
Shallow embedding of the retrieval-augmented VA chatbot
(src/chatbot.py, src/embeddings.py, src/deep_eval.py).

Texts are Lean `String`s; where Python splits text into words the
character list `String.data` is used so that the word-level loops of
`embeddings.py` can be reasoned about by structural induction.
External services (the OpenAI moderation endpoint, the Chroma vector
store, and the two model backends) are parameters of the orchestrator,
collected in the `VAChat.Env` structure; the outcome of one call to the
moderation service is a value of `VAChat.ModOutcome`, whose `error`
constructor stands for the service raising an exception.
-/

namespace VAChat

/-- Python `sep.join(parts)`: the parts concatenated in order with `sep`
between consecutive parts. -/
def joinWith (sep : String) : List String → String
  | [] => ""
  | [t] => t
  | t :: u :: rest => t ++ sep ++ joinWith sep (u :: rest)

/-- Python substring test `needle in hay` on character lists: some suffix
of `hay` starts with `needle`. -/
def containsSubList : List Char → List Char → Bool
  | [], needle => needle.isEmpty
  | c :: t, needle => needle.isPrefixOf (c :: t) || containsSubList t needle

/-- Python `pat in s` for strings. -/
def strContainsSub (s pat : String) : Bool :=
  containsSubList s.data pat.data

/-- Python `s.lower()` (ASCII letters, which covers every keyword the
chatbot matches against). -/
def toLowerStr (s : String) : String :=
  String.mk (s.data.map Char.toLower)

/-- The whitespace characters Python `str.split()` separates on. -/
def pySpace (c : Char) : Bool :=
  c == ' ' || c == '\t' || c == '\n' || c == '\r' || c == '\x0b' || c == '\x0c'

/-- Worker for Python `text.split()`: `acc` is the word currently being
read (empty when between words); maximal runs of non-whitespace
characters are emitted, so no empty word is ever produced. -/
def wordsAux : List Char → List Char → List (List Char)
  | [], acc => if acc.isEmpty then [] else [acc]
  | c :: cs, acc =>
    if pySpace c then
      if acc.isEmpty then wordsAux cs [] else acc :: wordsAux cs []
    else
      wordsAux cs (acc ++ [c])

/-- Python `text.split()` on a character list. -/
def pyWords (l : List Char) : List (List Char) :=
  wordsAux l []

/-- Python `" ".join(words)` on character lists. -/
def joinWords : List (List Char) → List Char
  | [] => []
  | [w] => w
  | w :: v :: rest => w ++ ' ' :: joinWords (v :: rest)

/-- The running `current_size` accounting of
`DocumentProcessor._create_chunks`: each word contributes
`len(word) + 1` (the `+1` is for the space). -/
def accSize (g : List (List Char)) : Nat :=
  (g.map (fun w => w.length + 1)).sum

/-- The word-packing loop of `DocumentProcessor._create_chunks`
(src/embeddings.py lines 78-88), factored over the word list: `cur` is
`current_chunk`, `size` is `current_size`; a chunk is flushed as soon as
`current_size >= chunk_size`, and a non-empty leftover `current_chunk`
is flushed at the end. Chunks are returned as word groups; the
`" ".join` of the source is applied by `create_chunks`. -/
def chunksAux (n : Nat) : List (List Char) → List (List Char) → Nat → List (List (List Char))
  | [], cur, _ => if cur.isEmpty then [] else [cur]
  | w :: ws, cur, size =>
    if n ≤ size + w.length + 1 then
      (cur ++ [w]) :: chunksAux n ws [] 0
    else
      chunksAux n ws (cur ++ [w]) (size + w.length + 1)

/-- The chunk word groups of a word list, starting from an empty
`current_chunk` of size `0`. -/
def chunkGroups (n : Nat) (ws : List (List Char)) : List (List (List Char)) :=
  chunksAux n ws [] 0

/-- `DocumentProcessor._create_chunks(text, chunk_size)`
(src/embeddings.py lines 69-90): `text.split()`, greedy word packing,
and `" ".join` of each packed group. -/
def create_chunks (text : String) (n : Nat) : List String :=
  (chunkGroups n (pyWords text.data)).map (fun g => String.mk (joinWords g))

/-- One record of the ingestion JSON: `{url, title, content}`. -/
structure IngestDoc where
  url : String
  title : String
  content : String
deriving DecidableEq

/-- The metadata stored with each chunk
(src/embeddings.py lines 61-65). -/
structure ChunkMeta where
  url : String
  title : String
  chunk_idx : Nat
deriving DecidableEq

/-- One entry of the Chroma collection: id, chunk text and metadata as
passed to `collection.add` (src/embeddings.py lines 59-67). -/
structure StoredChunk where
  id : String
  document : String
  metadata : ChunkMeta
deriving DecidableEq

/-- `DocumentProcessor.process_documents` (src/embeddings.py lines
45-67): for document `idx` and chunk `chunk_idx`, one stored entry with
id `doc_<idx>_chunk_<chunk_idx>` and metadata `{url, title, chunk_idx}`.
The JSON file read is represented by the already-parsed document
list. -/
def process_documents (docs : List IngestDoc) (chunkSize : Nat) : List StoredChunk :=
  docs.enum.flatMap (fun p =>
    ((create_chunks p.2.content chunkSize).enum).map (fun c =>
      { id := "doc_" ++ toString p.1 ++ "_chunk_" ++ toString c.1
        document := c.2
        metadata := { url := p.2.url, title := p.2.title, chunk_idx := c.1 } }))

/-- `DocumentProcessor.__init__` (src/embeddings.py lines 29-43): the
persistent collection is `store`; documents are processed (added to the
collection) only when `collection.count() == 0`. -/
def initProcessor (store : List StoredChunk) (docs : List IngestDoc) (chunkSize : Nat) :
    List StoredChunk :=
  if store.length = 0 then store ++ process_documents docs chunkSize else store

/-- One content block of a Claude response, as discriminated by
`extract_claude_text`: a dict with a `"text"` key, an object with a
`.text` attribute (e.g. `TextBlock`; its text rendered by `str`), or
anything else (carried as its `str` rendering). -/
inductive Block where
  | dictText (t : String)
  | objText (t : String)
  | other (s : String)
deriving DecidableEq

/-- The text extracted from one block inside the list branch of
`extract_claude_text`. -/
def blockText : Block → String
  | .dictText t => t
  | .objText t => t
  | .other s => s

/-- The shapes of `content` that `extract_claude_text` distinguishes:
a list of blocks, a dict with a `"text"` key, a plain string, an object
with a `.text` attribute, or anything else (its `str` rendering). -/
inductive Content where
  | blocks (bs : List Block)
  | dictText (t : String)
  | str (s : String)
  | objText (t : String)
  | other (s : String)
deriving DecidableEq

/-- `VAChatbot.extract_claude_text` (src/chatbot.py lines 88-110;
`DeepEvaluator.extract_claude_text` in src/deep_eval.py lines 26-43 is
identical): a block list is flattened with `"\n".join`, every other
shape yields its text or `str` rendering directly. -/
def extract_claude_text : Content → String
  | .blocks bs => joinWith "\n" (bs.map blockText)
  | .dictText t => t
  | .str s => s
  | .objText t => t
  | .other s => s

/-- Outcome of one call to the external OpenAI moderation endpoint:
flagged with the list of flagged category names, not flagged, or the
call raised an exception carrying message `e`. -/
inductive ModOutcome where
  | flagged (categories : List String)
  | safe
  | error (e : String)
deriving DecidableEq

/-- `VAChatbot.check_moderation` (src/chatbot.py lines 72-86): flagged
input yields `(False, "Content flagged for: ...")`, clean input
`(True, "")`, and an exception from the service is caught and turned
into `(False, "Error checking moderation: ...")` — the chatbot's
moderation check fails closed. -/
def check_moderation (oracle : String → ModOutcome) (text : String) : Bool × String :=
  match oracle text with
  | .flagged cats => (false, "Content flagged for: " ++ joinWith ", " cats)
  | .safe => (true, "")
  | .error e => (false, "Error checking moderation: " ++ e)

/-- `DeepEvaluator.check_moderation` (src/deep_eval.py lines 13-24):
identical to `VAChatbot.check_moderation` except that an exception from
the service yields `(True, "Moderation check failed: ...")` — this copy
fails open. -/
def deep_check_moderation (oracle : String → ModOutcome) (text : String) : Bool × String :=
  match oracle text with
  | .flagged cats => (false, "Content flagged for: " ++ joinWith ", " cats)
  | .safe => (true, "")
  | .error e => (true, "Moderation check failed: " ++ e)

/-- The two provider kinds of `available_models`. -/
inductive ProviderKind where
  | openai
  | claude
deriving DecidableEq

/-- One entry of `VAChatbot.available_models`: provider kind, model id
and temperature (0.7 throughout, stored as tenths to stay in exact
arithmetic). -/
structure ProviderConfig where
  provider : ProviderKind
  model : String
  temperatureTenths : Nat
deriving DecidableEq

/-- `VAChatbot.available_models` (src/chatbot.py lines 22-27). -/
def available_models : List (String × ProviderConfig) :=
  [("GPT-4 (Expensive)", ⟨.openai, "gpt-4", 7⟩),
   ("GPT-3.5 (Cheap)", ⟨.openai, "gpt-3.5-turbo", 7⟩),
   ("Claude-3-Opus (Expensive)", ⟨.claude, "claude-3-opus-20240229", 7⟩),
   ("Claude-3.7-Sonnet (Cheap)", ⟨.claude, "claude-3-7-sonnet-20250219", 7⟩)]

/-- One result of `DocumentProcessor.query_documents`: chunk text plus
the `url` read from its metadata (the only metadata field
`get_responses` uses). -/
structure RetrievedDoc where
  text : String
  url : String
deriving DecidableEq

/-- A LangChain message: `SystemMessage`, `HumanMessage` or
`AIMessage`. -/
inductive Msg where
  | system (content : String)
  | human (content : String)
  | ai (content : String)
deriving DecidableEq

/-- One `{"role": ..., "content": ...}` dict of the Anthropic messages
payload. -/
structure ClaudeMsg where
  role : String
  content : String
deriving DecidableEq

/-- One chat-history entry `{"role": ..., "content": ...}`. -/
structure Turn where
  role : String
  content : String
deriving DecidableEq

/-- Observable external calls made during `get_responses`: moderation
checks, the document-store query, and the two kinds of provider
invocation with their exact payloads. -/
inductive Event where
  | modCheck (text : String)
  | docQuery (q : String)
  | openaiCall (cfg : ProviderConfig) (msgs : List Msg)
  | claudeCall (cfg : ProviderConfig) (msgs : List ClaudeMsg)
deriving DecidableEq

/-- The external collaborators of `VAChatbot`: the moderation endpoint,
the vector store (`DocumentProcessor.query_documents`), and the two
backends. A backend call returns `Except.error e` when the underlying
client raises an exception with message `e`; the Claude backend returns
the raw `response.content`, which `get_responses` flattens with
`extract_claude_text`. -/
structure Env where
  moderation : String → ModOutcome
  queryDocs : String → List RetrievedDoc
  openai : ProviderConfig → List Msg → Except String String
  claude : ProviderConfig → List ClaudeMsg → Except String Content

/-- Result of one `get_responses` call: the returned pair (or the
message of an uncaught exception) together with the trace of external
calls made. -/
structure TraceResult where
  result : Except String (String × String)
  events : List Event

/-- The refusal text `get_responses` returns in both slots when the
query fails the moderation check (src/chatbot.py line 116). -/
def blockedMsg (reason : String) : String :=
  "I apologize, but I cannot process that request. " ++ reason ++
    " Please keep your questions focused on VA benefits and services."

/-- The fixed medical-redirect message (src/chatbot.py lines 125-137). -/
def medicalMsg : String :=
  "I cannot provide medical advice. For medical questions, please:\n1. Contact your VA healthcare provider\n2. Visit your nearest VA medical center\n3. Use My HealtheVet secure messaging\n4. Call 911 for emergencies\n\nI can help you with VA benefits, services, and administrative questions."

/-- `VAChatbot.__init__`'s `medical_keywords` list
(src/chatbot.py lines 119-123). -/
def medical_keywords : List String :=
  ["diagnose", "diagnosis", "treatment", "symptom", "condition",
   "illness", "disease", "medication", "prescription", "doctor",
   "healthcare", "medical", "therapy", "cure", "heal"]

/-- `any(keyword in query.lower() for keyword in medical_keywords)`
(src/chatbot.py line 124). -/
def hasMedicalKeyword (q : String) : Bool :=
  medical_keywords.any (fun kw => strContainsSub (toLowerStr q) kw)

/-- `VAChatbot.__init__`'s `self.system_prompt`
(src/chatbot.py lines 28-70), transcribed verbatim (the Python literal
keeps the class-body indentation of its continuation lines). -/
def system_prompt : String :=
  "You are a helpful VA assistant that answers questions about VA benefits and services using information from VA.gov.
        Always use the provided context from VA.gov to answer questions accurately. If the context contains specific information about VA.gov processes or requirements, use that information.
        Do not use any content or reasoning that is not provided to you. 
        
        SOURCE CITATION REQUIREMENTS:
        - You MUST cite the source URL for EVERY piece of information you provide
        - Format citations as: [Source: URL]
        - If you use information from multiple sources, cite each one separately
        - If you cannot find relevant information in the provided context, say so and do not make up information
        
        IMPORTANT MEDICAL DISCLAIMER:
        - Do not provide any medical advice, diagnoses, or treatment recommendations
        - Do not interpret medical conditions or symptoms
        - For medical questions, always direct users to:
          * Their VA healthcare provider
          * The nearest VA medical center
          * The My HealtheVet secure messaging system
          * Emergency services (911) for urgent medical needs
        
        For login issues, follow this structure:
        1. First, ask clarifying questions to understand the specific issue:
           - Which sign-in method are you using? (Login.gov, ID.me, or DS Logon)
           - What specific error message are you seeing?
           - Have you been able to sign in before?
           - Are you trying to create a new account or access an existing one?
        
        2. Based on their response, explain the available sign-in options and provide specific troubleshooting steps:
           - For Login.gov/ID.me issues:
             * Verify identity requirements
             * Check for common error messages
             * Try clearing browser cache/cookies
           - For DS Logon issues:
             * Note that it\x27s available through September 30, 2025
             * Provide DS Logon-specific troubleshooting
        
        3. Finally, provide support resources:
           - MyVA411 support line (800-698-2411)
           - Links to relevant VA.gov resources
           - When to contact VA support
        
        Always cite the source URL when providing information.
        If you\x27re not sure about something, ask for more details before providing guidance.
        If a question appears to be seeking medical advice, respond with the medical disclaimer and direct them to appropriate VA healthcare resources."

/-- The context string assembled from the retrieved documents
(src/chatbot.py lines 139-146). -/
def contextOf (env : Env) (q : String) : String :=
  joinWith "\n\n" ((env.queryDocs q).map
    (fun d => "Content: " ++ d.text ++ "\nSource: " ++ d.url))

/-- The chat-history loop of `get_responses` (src/chatbot.py lines
153-163), returning the messages appended and the moderation-check
events performed: a user turn is checked and dropped (`continue`) when
`check_moderation` says unsafe; any other role is appended as an
`AIMessage` without a check. -/
def historyLoopT (oracle : String → ModOutcome) : List Turn → List Msg × List Event
  | [] => ([], [])
  | t :: ts =>
    let rest := historyLoopT oracle ts
    if t.role == "user" then
      if (check_moderation oracle t.content).1 then
        (Msg.human t.content :: rest.1, Event.modCheck t.content :: rest.2)
      else
        (rest.1, Event.modCheck t.content :: rest.2)
    else
      (Msg.ai t.content :: rest.1, rest.2)

/-- The `messages` list of `get_responses` (src/chatbot.py lines
148-166): the system message carrying `system_prompt` and the assembled
context, the moderation-filtered history, then the current query. -/
def sharedMessages (env : Env) (q : String) (hist : List Turn) : List Msg :=
  Msg.system (system_prompt ++ "\n\nContext:\n" ++ contextOf env q)
    :: (historyLoopT env.moderation hist).1 ++ [Msg.human q]

/-- One provider invocation of `get_responses` (src/chatbot.py lines
168-198): an `openai` config gets the full `messages` list via
`ChatOpenAI.invoke`; a `claude` config gets
`messages=[{"role": "user", "content": query}]` — only the bare query —
and its block content is flattened with `extract_claude_text`. Returns
the response text (or the uncaught exception) and the call event. -/
def invokeSlot (env : Env) (q : String) (msgs : List Msg) (cfg : ProviderConfig) :
    Except String String × List Event :=
  match cfg.provider with
  | .openai =>
    match env.openai cfg msgs with
    | .error e => (.error e, [Event.openaiCall cfg msgs])
    | .ok text => (.ok text, [Event.openaiCall cfg msgs])
  | .claude =>
    match env.claude cfg [ClaudeMsg.mk "user" q] with
    | .error e => (.error e, [Event.claudeCall cfg [ClaudeMsg.mk "user" q]])
    | .ok content =>
      (.ok (extract_claude_text content), [Event.claudeCall cfg [ClaudeMsg.mk "user" q]])

/-- The provider section of `get_responses` (src/chatbot.py lines
168-202 and 302-308): model 1 is looked up and invoked, then model 2;
a missing key or an exception from an adapter propagates (there is no
try/except around the provider calls, so the whole call fails and the
second provider is not reached when the first raises). On success both
responses are moderation-checked (lines 201-202), but the verdicts do
not change the returned pair — lines 302-308 return
`(response1.content, response2.content)` in every case. The DeepEval
metric calls and the CSV logging (lines 204-300) read the responses
without modifying them and are not traced. -/
def runProviders (env : Env) (q : String) (msgs : List Msg) (m1 m2 : String) :
    Except String (String × String) × List Event :=
  match available_models.lookup m1 with
  | none => (.error ("KeyError: " ++ m1), [])
  | some cfg1 =>
    match invokeSlot env q msgs cfg1 with
    | (.error e, evs1) => (.error e, evs1)
    | (.ok r1, evs1) =>
      match available_models.lookup m2 with
      | none => (.error ("KeyError: " ++ m2), evs1)
      | some cfg2 =>
        match invokeSlot env q msgs cfg2 with
        | (.error e, evs2) => (.error e, evs1 ++ evs2)
        | (.ok r2, evs2) =>
          (.ok (r1, r2), evs1 ++ evs2 ++ [Event.modCheck r1, Event.modCheck r2])

/-- `VAChatbot.get_responses` (src/chatbot.py lines 112-308): the
moderation gate on the query (refusal text in both slots on a negative
verdict), the medical-keyword gate (fixed redirect in both slots),
then retrieval, message assembly and the two provider invocations. -/
def get_responses (env : Env) (q : String) (hist : List Turn) (m1 m2 : String) : TraceResult :=
  let gate := check_moderation env.moderation q
  if gate.1 = false then
    ⟨.ok (blockedMsg gate.2, blockedMsg gate.2), [Event.modCheck q]⟩
  else if hasMedicalKeyword q = true then
    ⟨.ok (medicalMsg, medicalMsg), [Event.modCheck q]⟩
  else
    let pr := runProviders env q (sharedMessages env q hist) m1 m2
    ⟨pr.1, Event.modCheck q :: Event.docQuery q :: (historyLoopT env.moderation hist).2 ++ pr.2⟩

/-- The content of a LangChain message. -/
def msgContent : Msg → String
  | .system s => s
  | .human s => s
  | .ai s => s

/-- The payloads of the OpenAI-style calls in a trace, in order. -/
def openaiPayloads (evs : List Event) : List (List Msg) :=
  evs.filterMap (fun ev =>
    match ev with
    | .openaiCall _ msgs => some msgs
    | _ => none)

/-- The payloads of the Anthropic calls in a trace, in order. -/
def claudePayloads (evs : List Event) : List (List ClaudeMsg) :=
  evs.filterMap (fun ev =>
    match ev with
    | .claudeCall _ msgs => some msgs
    | _ => none)

/-- A benign environment: the moderation service flags nothing, the
store is empty, and both backends answer with fixed texts. -/
def env0 : Env where
  moderation := fun _ => .safe
  queryDocs := fun _ => []
  openai := fun _ _ => .ok "alpha"
  claude := fun _ _ => .ok (.str "beta")

/-- An environment whose moderation service raises on every call. -/
def envDown : Env where
  moderation := fun _ => .error "down"
  queryDocs := fun _ => []
  openai := fun _ _ => .ok "alpha"
  claude := fun _ _ => .ok (.str "beta")

/-- An environment where the `gpt-4` backend raises and every other
backend succeeds. -/
def envPartial : Env where
  moderation := fun _ => .safe
  queryDocs := fun _ => []
  openai := fun cfg _ => if cfg.model == "gpt-4" then .error "boom" else .ok "fine"
  claude := fun _ _ => .ok (.str "beta")

/-- An environment with one retrievable document and a prior exchange,
used to inspect the payloads the two provider kinds receive. -/
def envC5 : Env where
  moderation := fun _ => .safe
  queryDocs := fun _ => [⟨"some text", "http://u"⟩]
  openai := fun _ _ => .ok "alpha"
  claude := fun _ _ => .ok (.str "beta")

/-- A two-turn prior history: one user turn, one assistant turn. -/
def histC5 : List Turn := [⟨"user", "h1"⟩, ⟨"assistant", "a1"⟩]

/-- A turn of `get_responses` in `envC5` dispatched to one OpenAI slot
and one Claude slot. -/
def runC5 : TraceResult :=
  get_responses envC5 "what is the gi bill" histC5 "GPT-4 (Expensive)" "Claude-3-Opus (Expensive)"

/-- A turn with a self-harm query in the benign environment. -/
def runSelfHarm : TraceResult :=
  get_responses env0 "I want to kill myself" [] "GPT-4 (Expensive)" "GPT-3.5 (Cheap)"

/-- Python `"word " * 50`: the document content of the ingestion
scenario. -/
def content50 : String := String.join (List.replicate 50 "word ")

/-- Twenty words `word` joined by single spaces (99 characters). -/
def chunk20 : String := joinWith " " (List.replicate 20 "word")

/-- Ten words `word` joined by single spaces (49 characters). -/
def chunk10 : String := joinWith " " (List.replicate 10 "word")

/-- A store already holding one chunk, for the ingestion gate. -/
def store1 : List StoredChunk := [⟨"doc_0_chunk_0", "old", ⟨"u", "t", 0⟩⟩]

/-- A one-document ingestion input. -/
def docs1 : List IngestDoc := [⟨"u", "t", "hello world"⟩]

/-- Unfolding `wordsAux` on the empty list. -/
theorem wordsAux_nil (acc : List Char) :
    wordsAux [] acc = if acc.isEmpty then [] else [acc] := rfl

/-- Unfolding `wordsAux` on a cons. -/
theorem wordsAux_cons (c : Char) (cs acc : List Char) :
    wordsAux (c :: cs) acc =
      if pySpace c then
        (if acc.isEmpty then wordsAux cs [] else acc :: wordsAux cs [])
      else wordsAux cs (acc ++ [c]) := rfl

/-- Every word emitted by `wordsAux` is non-empty and free of
whitespace, provided the accumulator is free of whitespace. -/
theorem wordsAux_props : ∀ (l acc : List Char), (∀ c ∈ acc, pySpace c = false) →
    ∀ w ∈ wordsAux l acc, w ≠ [] ∧ ∀ ch ∈ w, pySpace ch = false
  | [], acc, hacc => by
    intro w hw
    rw [wordsAux_nil] at hw
    by_cases h : acc.isEmpty
    · simp [h] at hw
    · simp [h] at hw
      subst hw
      exact ⟨fun hnil => by simp [hnil] at h, hacc⟩
  | c :: cs, acc, hacc => by
    intro w hw
    rw [wordsAux_cons] at hw
    by_cases hc : pySpace c
    · by_cases h : acc.isEmpty
      · simp [hc, h] at hw
        exact wordsAux_props cs [] (by simp) w hw
      · simp [hc, h] at hw
        rcases hw with hw | hw
        · subst hw
          exact ⟨fun hnil => by simp [hnil] at h, hacc⟩
        · exact wordsAux_props cs [] (by simp) w hw
    · simp only [hc, Bool.false_eq_true, if_false] at hw
      refine wordsAux_props cs (acc ++ [c]) ?_ w hw
      intro d hd
      rcases List.mem_append.mp hd with hd | hd
      · exact hacc d hd
      · simp at hd
        subst hd
        simpa using hc

/-- Reading a whitespace-free block through `wordsAux` just extends the
accumulator. -/
theorem wordsAux_append : ∀ (w rest acc : List Char), (∀ c ∈ w, pySpace c = false) →
    wordsAux (w ++ rest) acc = wordsAux rest (acc ++ w)
  | [], rest, acc, _ => by simp
  | c :: w, rest, acc, hw => by
    have hc : pySpace c = false := hw c (by simp)
    have hw2 : ∀ d ∈ w, pySpace d = false := fun d hd => hw d (by simp [hd])
    have h1 : wordsAux ((c :: w) ++ rest) acc = wordsAux (w ++ rest) (acc ++ [c]) := by
      rw [List.cons_append, wordsAux_cons, hc]
      simp
    rw [h1, wordsAux_append w rest (acc ++ [c]) hw2, List.append_assoc]
    rfl

/-- Splitting the `" ".join` of non-empty whitespace-free words recovers
exactly those words. -/
theorem pyWords_joinWords : ∀ (g : List (List Char)),
    (∀ w ∈ g, w ≠ [] ∧ ∀ ch ∈ w, pySpace ch = false) → pyWords (joinWords g) = g
  | [], _ => rfl
  | [w], hg => by
    obtain ⟨hne, hfree⟩ := hg w (by simp)
    have hwe : w.isEmpty = false := by
      cases w
      · exact absurd rfl hne
      · rfl
    have h1 : pyWords (joinWords [w]) = wordsAux (w ++ []) [] := by
      simp [pyWords, joinWords]
    rw [h1, wordsAux_append w [] [] hfree, List.nil_append, wordsAux_nil, hwe]
    simp
  | w :: v :: rest, hg => by
    obtain ⟨hne, hfree⟩ := hg w (by simp)
    have hwe : w.isEmpty = false := by
      cases w
      · exact absurd rfl hne
      · rfl
    have hg2 : ∀ u ∈ v :: rest, u ≠ [] ∧ ∀ ch ∈ u, pySpace ch = false :=
      fun u hu => hg u (by simp [hu])
    have h1 : pyWords (joinWords (w :: v :: rest))
        = wordsAux (w ++ ' ' :: joinWords (v :: rest)) [] := rfl
    rw [h1, wordsAux_append w (' ' :: joinWords (v :: rest)) [] hfree, List.nil_append,
      wordsAux_cons, hwe]
    have hsp : pySpace ' ' = true := rfl
    rw [hsp]
    simp only [if_true, Bool.false_eq_true, if_false]
    rw [show wordsAux (joinWords (v :: rest)) [] = pyWords (joinWords (v :: rest)) from rfl,
      pyWords_joinWords (v :: rest) hg2]

/-- Unfolding `chunksAux` on the empty word list. -/
theorem chunksAux_nil (n : Nat) (cur : List (List Char)) (size : Nat) :
    chunksAux n [] cur size = if cur.isEmpty then [] else [cur] := rfl

/-- Unfolding `chunksAux` on a cons. -/
theorem chunksAux_cons (n : Nat) (w : List Char) (ws cur : List (List Char)) (size : Nat) :
    chunksAux n (w :: ws) cur size =
      if n ≤ size + w.length + 1 then
        (cur ++ [w]) :: chunksAux n ws [] 0
      else chunksAux n ws (cur ++ [w]) (size + w.length + 1) := rfl

/-- The chunk groups of `chunksAux` concatenate back to the pending
chunk followed by the remaining words. -/
theorem chunksAux_flatten (n : Nat) : ∀ (ws cur : List (List Char)) (size : Nat),
    (chunksAux n ws cur size).flatten = cur ++ ws
  | [], cur, size => by
    rw [chunksAux_nil]
    by_cases h : cur.isEmpty
    · simp [h, List.isEmpty_iff.mp h]
    · simp [h]
  | w :: ws, cur, size => by
    rw [chunksAux_cons]
    by_cases h : n ≤ size + w.length + 1
    · rw [if_pos h]
      simp [chunksAux_flatten n ws [] 0]
    · rw [if_neg h]
      simp [chunksAux_flatten n ws (cur ++ [w]) (size + w.length + 1)]

/-- No chunk group emitted by `chunksAux` is empty. -/
theorem chunksAux_ne_nil (n : Nat) : ∀ (ws cur : List (List Char)) (size : Nat),
    ∀ g ∈ chunksAux n ws cur size, g ≠ []
  | [], cur, size => by
    intro g hg
    rw [chunksAux_nil] at hg
    by_cases h : cur.isEmpty
    · simp [h] at hg
    · simp [h] at hg
      subst hg
      exact fun hnil => by simp [hnil] at h
  | w :: ws, cur, size => by
    intro g hg
    rw [chunksAux_cons] at hg
    by_cases h : n ≤ size + w.length + 1
    · rw [if_pos h] at hg
      rcases List.mem_cons.mp hg with hg | hg
      · subst hg
        simp
      · exact chunksAux_ne_nil n ws [] 0 g hg
    · rw [if_neg h] at hg
      exact chunksAux_ne_nil n ws (cur ++ [w]) (size + w.length + 1) g hg

/-- `accSize` of an extended pending chunk. -/
theorem accSize_append (cur : List (List Char)) (w : List Char) :
    accSize (cur ++ [w]) = accSize cur + (w.length + 1) := by
  simp [accSize]

/-- Every chunk group except possibly the last one was flushed by the
size test, so its accounted size reaches the threshold `n`. -/
theorem chunksAux_threshold (n : Nat) : ∀ (ws cur : List (List Char)) (size : Nat),
    size = accSize cur → ∀ g ∈ (chunksAux n ws cur size).dropLast, n ≤ accSize g
  | [], cur, size, _ => by
    intro g hg
    rw [chunksAux_nil] at hg
    by_cases h : cur.isEmpty
    · simp [h] at hg
    · simp [h] at hg
  | w :: ws, cur, size, hsize => by
    intro g hg
    rw [chunksAux_cons] at hg
    by_cases h : n ≤ size + w.length + 1
    · rw [if_pos h] at hg
      cases hrest : chunksAux n ws [] 0 with
      | nil => rw [hrest] at hg; simp at hg
      | cons r rs =>
        rw [hrest, List.dropLast_cons_of_ne_nil (by simp)] at hg
        rcases List.mem_cons.mp hg with hg | hg
        · subst hg
          rw [accSize_append, ← hsize]
          omega
        · have := chunksAux_threshold n ws [] 0 rfl g
          rw [hrest] at this
          exact this hg
    · rw [if_neg h] at hg
      refine chunksAux_threshold n ws (cur ++ [w]) (size + w.length + 1) ?_ g hg
      rw [accSize_append, hsize]
      omega
  termination_by ws => ws.length

/-- The joined length of a non-empty chunk group is its accounted size
minus the one trailing space the accounting adds. -/
theorem joinWords_length : ∀ (g : List (List Char)), g ≠ [] →
    (joinWords g).length + 1 = accSize g
  | [], h => absurd rfl h
  | [w], _ => by simp [joinWords, accSize]
  | w :: v :: rest, _ => by
    have ih := joinWords_length (v :: rest) (by simp)
    show (w ++ ' ' :: joinWords (v :: rest)).length + 1 = accSize (w :: v :: rest)
    have : accSize (w :: v :: rest) = (w.length + 1) + accSize (v :: rest) := by
      simp [accSize]
    rw [this, ← ih]
    simp
    omega

/-- The join of a non-empty group of non-empty words is non-empty. -/
theorem joinWords_ne_nil : ∀ (g : List (List Char)), g ≠ [] →
    (∀ w ∈ g, w ≠ []) → joinWords g ≠ []
  | [], h, _ => absurd rfl h
  | [w], _, hw => by simpa [joinWords] using hw w (by simp)
  | w :: v :: rest, _, hw => by
    show w ++ ' ' :: joinWords (v :: rest) ≠ []
    simp

/-- `dropLast` commutes with `map`. -/
theorem map_dropLast_comm {α β : Type} (f : α → β) : ∀ (l : List α),
    (l.map f).dropLast = l.dropLast.map f
  | [] => rfl
  | [a] => rfl
  | a :: b :: t => by
    have ih := map_dropLast_comm f (b :: t)
    simp only [List.map_cons, List.dropLast_cons_of_ne_nil (by simp : b :: t ≠ []),
      List.dropLast_cons_of_ne_nil (by simp : (b :: t).map f ≠ []), ih]
    simp

/-- Claim C7: for every text and every chunk_size > 0, `_create_chunks`
performs word-boundary greedy packing and never splits a word:
concatenating the word sequences of the returned chunks in order yields
exactly the word sequence of the input text (`text.split()`), every
returned chunk is non-empty, and every chunk except possibly the last
reaches the target size threshold (under the loop's accounting, which
charges each word its length plus one separating space, a flushed
chunk `c` satisfies `len(c) + 1 >= chunk_size`). -/
theorem create_chunks_word_partition (text : String) (n : Nat) (_hn : 0 < n) :
    (((create_chunks text n).map (fun c => pyWords c.data)).flatten = pyWords text.data)
    ∧ (∀ c ∈ create_chunks text n, c.data ≠ [])
    ∧ (∀ c ∈ (create_chunks text n).dropLast, n ≤ c.data.length + 1) := by
  have hwords : ∀ w ∈ pyWords text.data, w ≠ [] ∧ ∀ ch ∈ w, pySpace ch = false :=
    wordsAux_props text.data [] (by simp)
  have hjoin : (chunkGroups n (pyWords text.data)).flatten = pyWords text.data := by
    rw [chunkGroups, chunksAux_flatten n (pyWords text.data) [] 0]
    rfl
  have hgw : ∀ g ∈ chunkGroups n (pyWords text.data),
      ∀ w ∈ g, w ≠ [] ∧ ∀ ch ∈ w, pySpace ch = false := by
    intro g hg w hw
    exact hwords w (by rw [← hjoin]; exact List.mem_flatten.mpr ⟨g, hg, hw⟩)
  have hgne : ∀ g ∈ chunkGroups n (pyWords text.data), g ≠ [] :=
    chunksAux_ne_nil n (pyWords text.data) [] 0
  refine ⟨?_, ?_, ?_⟩
  · have h1 : (create_chunks text n).map (fun c => pyWords c.data)
        = (chunkGroups n (pyWords text.data)).map (fun g => pyWords (joinWords g)) := by
      rw [create_chunks, List.map_map]
      exact List.map_congr_left (fun g _ => rfl)
    rw [h1, List.map_congr_left (fun g hg => pyWords_joinWords g (hgw g hg))]
    simpa using hjoin
  · intro c hc
    rcases List.mem_map.mp hc with ⟨g, hg, hgc⟩
    rw [← hgc]
    exact joinWords_ne_nil g (hgne g hg) (fun w hw => (hgw g hg w hw).1)
  · intro c hc
    rw [create_chunks, map_dropLast_comm] at hc
    rcases List.mem_map.mp hc with ⟨g, hg, hgc⟩
    have hmem : g ∈ chunkGroups n (pyWords text.data) := List.dropLast_subset _ hg
    have hthr : n ≤ accSize g :=
      chunksAux_threshold n (pyWords text.data) [] 0 rfl g hg
    have hlen : (joinWords g).length + 1 = accSize g :=
      joinWords_length g (hgne g hmem)
    rw [← hgc]
    show n ≤ (joinWords g).length + 1
    omega

/-- Witness for `create_chunks_word_partition` at the text
`"alpha beta gamma"` with chunk size 8 (chunks
`["alpha beta", "gamma"]`). -/
theorem create_chunks_word_partition_witness :
    0 < 8
    ∧ ((((create_chunks "alpha beta gamma" 8).map (fun c => pyWords c.data)).flatten
          = pyWords ("alpha beta gamma" : String).data)
        ∧ (∀ c ∈ create_chunks "alpha beta gamma" 8, c.data ≠ [])
        ∧ (∀ c ∈ (create_chunks "alpha beta gamma" 8).dropLast, 8 ≤ c.data.length + 1)) :=
  ⟨by decide, create_chunks_word_partition "alpha beta gamma" 8 (by decide)⟩

/-- Claim C6 counterexample: ingesting the single document
`{url: "u1", title: "t1", content: "word " * 50}` with `chunk_size=100`
stores three chunks, not one. The content has 50 four-letter words;
the loop charges 5 per word and flushes at `current_size >= 100`,
i.e. after every 20 words, leaving 20 + 20 + 10. -/
theorem single_chunk_counterexample :
    (process_documents [⟨"u1", "t1", content50⟩] 100).length = 3
    ∧ ¬ (process_documents [⟨"u1", "t1", content50⟩] 100).length = 1 := by
  decide

/-- Claim C6 amended: ingesting
`{url: "u1", title: "t1", content: "word " * 50}` with `chunk_size=100`
stores exactly three chunks — two of twenty words and one of ten — with
ids `doc_0_chunk_0`, `doc_0_chunk_1`, `doc_0_chunk_2` and metadata
`{url: "u1", title: "t1", chunk_idx: 0/1/2}`; in particular the first
chunk has exactly the metadata and id the claim states. -/
theorem word50_chunking :
    process_documents [⟨"u1", "t1", content50⟩] 100 =
      [⟨"doc_0_chunk_0", chunk20, ⟨"u1", "t1", 0⟩⟩,
       ⟨"doc_0_chunk_1", chunk20, ⟨"u1", "t1", 1⟩⟩,
       ⟨"doc_0_chunk_2", chunk10, ⟨"u1", "t1", 2⟩⟩] := by
  decide

/-- Claim C8: ingestion is gated on store emptiness at construction — a
`DocumentProcessor` built over a non-empty collection performs no
ingestion, so building once over the empty store and then again over
the result leaves the stored chunks (hence the chunk count) unchanged;
and every stored chunk is keyed `doc_<i>_chunk_<j>`. -/
theorem ingestion_gated_on_store_emptiness (store : List StoredChunk)
    (docs : List IngestDoc) (n : Nat) (h : 0 < store.length) :
    initProcessor store docs n = store
    ∧ initProcessor (initProcessor [] docs n) docs n = initProcessor [] docs n
    ∧ ∀ c ∈ process_documents docs n, ∃ i j : Nat,
        c.id = "doc_" ++ toString i ++ "_chunk_" ++ toString j := by
  refine ⟨?_, ?_, ?_⟩
  · rw [initProcessor, if_neg (by omega)]
  · have hfirst : initProcessor [] docs n = process_documents docs n := by
      simp [initProcessor]
    rw [hfirst]
    cases hp : process_documents docs n with
    | nil => simp [initProcessor, hp]
    | cons a l => simp [initProcessor]
  · intro c hc
    rcases List.mem_flatMap.mp hc with ⟨p, _, hcp⟩
    rcases List.mem_map.mp hcp with ⟨q, _, hqc⟩
    exact ⟨p.1, q.1, by rw [← hqc]⟩

/-- Witness for `ingestion_gated_on_store_emptiness` on a store holding
one chunk and a one-document ingestion input. -/
theorem ingestion_gated_witness :
    0 < store1.length
    ∧ (initProcessor store1 docs1 4 = store1
        ∧ initProcessor (initProcessor [] docs1 4) docs1 4 = initProcessor [] docs1 4
        ∧ ∀ c ∈ process_documents docs1 4, ∃ i j : Nat,
            c.id = "doc_" ++ toString i ++ "_chunk_" ++ toString j) :=
  ⟨by decide, ingestion_gated_on_store_emptiness store1 docs1 4 (by decide)⟩

/-- Claim C9 counterexample: flattening the two-block list
`[{"text": "a"}, {"text": "b"}]` yields `"a\nb"` — the texts joined with
a newline — which differs from their plain concatenation `"ab"`, so the
blocks' texts are not "concatenated" in the strict sense. -/
theorem block_concat_counterexample :
    extract_claude_text (Content.blocks [Block.dictText "a", Block.dictText "b"]) = "a\nb"
    ∧ ("a\nb" : String) ≠ "a" ++ "b" := by
  decide

/-- Claim C9 amended: `extract_claude_text` returns every plain string input
unchanged (and is idempotent: re-flattening any flattened output
returns it unchanged), and on a list of blocks exposing a text field it
returns those texts in their original order joined with `"\n"`
separators (head first, then the flattening of the remaining blocks),
rather than their plain concatenation. -/
theorem extract_flat_and_ordered (s : String) (b : Block) (bs : List Block) (c : Content) :
    extract_claude_text (Content.str s) = s
    ∧ extract_claude_text (Content.str (extract_claude_text c)) = extract_claude_text c
    ∧ extract_claude_text (Content.blocks (b :: bs)) =
        blockText b ++ (if bs.isEmpty then ""
          else "\n" ++ extract_claude_text (Content.blocks bs)) := by
  refine ⟨rfl, rfl, ?_⟩
  cases bs with
  | nil => simp [extract_claude_text, joinWith]
  | cons b2 rest => simp [extract_claude_text, joinWith, String.append_assoc]

/-- The history loop of `get_responses` appends exactly the
moderation-filtered history (user turns kept only when the check says
safe) and performs a moderation check exactly on the user turns. -/
theorem historyLoopT_spec (oracle : String → ModOutcome) : ∀ hist : List Turn,
    (historyLoopT oracle hist).1
      = (hist.filter (fun t => !(t.role == "user")
          || (check_moderation oracle t.content).1)).map
          (fun t => if t.role == "user" then Msg.human t.content else Msg.ai t.content)
    ∧ (historyLoopT oracle hist).2
      = (hist.filter (fun t => t.role == "user")).map (fun t => Event.modCheck t.content)
  | [] => ⟨rfl, rfl⟩
  | t :: ts => by
    obtain ⟨ih1, ih2⟩ := historyLoopT_spec oracle ts
    by_cases hu : (t.role == "user") = true
    · have hu2 : t.role = "user" := by simpa using hu
      by_cases hs : (check_moderation oracle t.content).1 = true
      · constructor <;> simp [historyLoopT, hu, hu2, hs, ih1, ih2, List.filter_cons]
      · constructor <;>
          simp [historyLoopT, hu, hu2, Bool.eq_false_iff.mpr hs, ih1, ih2, List.filter_cons]
    · have hu2 : ¬ t.role = "user" := by simpa using hu
      constructor <;> simp [historyLoopT, hu, hu2, ih1, ih2, List.filter_cons]

/-- Filtering a list twice with the same predicate equals filtering it
once. -/
theorem filter_twice {α : Type} (p : α → Bool) (l : List α) :
    (l.filter p).filter p = l.filter p := by
  rw [List.filter_filter]
  exact List.filter_congr (fun a _ => by cases h : p a <;> simp [h])

/-- Claim C10: when assembling the prompt message list, every prior history
turn with role `user` is re-checked by the moderation service and
dropped when the check says unsafe (which includes the case where the
moderation call raises, since `VAChatbot.check_moderation` maps an
exception to a negative verdict), while turns of any other role are
never checked and always appended; and the returned responses do not
report the omission — `get_responses` returns exactly what it returns
on the already-filtered history. -/
theorem history_moderation_filtering (env : Env) (q : String) (hist : List Turn)
    (m1 m2 : String) :
    (historyLoopT env.moderation hist).1
      = (hist.filter (fun t => !(t.role == "user")
          || (check_moderation env.moderation t.content).1)).map
          (fun t => if t.role == "user" then Msg.human t.content else Msg.ai t.content)
    ∧ (historyLoopT env.moderation hist).2
      = (hist.filter (fun t => t.role == "user")).map (fun t => Event.modCheck t.content)
    ∧ (get_responses env q hist m1 m2).result
      = (get_responses env q
          (hist.filter (fun t => !(t.role == "user")
            || (check_moderation env.moderation t.content).1)) m1 m2).result := by
  obtain ⟨h1, h2⟩ := historyLoopT_spec env.moderation hist
  refine ⟨h1, h2, ?_⟩
  have hmsg : sharedMessages env q
      (hist.filter (fun t => !(t.role == "user")
        || (check_moderation env.moderation t.content).1)) = sharedMessages env q hist := by
    rw [sharedMessages, sharedMessages,
      (historyLoopT_spec env.moderation _).1, h1, filter_twice]
  by_cases hg : (check_moderation env.moderation q).1 = false
  · simp [get_responses, hg]
  · by_cases hm : hasMedicalKeyword q = true
    · simp [get_responses, hg, hm]
    · simp [get_responses, hg, hm, hmsg]

/-- Claim C4: a query that passes the moderation check and whose lowercased
text contains a medical keyword makes `get_responses` return the fixed
medical-redirect message in both provider slots, with the moderation
check as the only external call — no document-store query and no
provider invocation. -/
theorem medical_keyword_redirect (env : Env) (q : String) (hist : List Turn) (m1 m2 : String)
    (hmod : env.moderation q = ModOutcome.safe) (hmed : hasMedicalKeyword q = true) :
    get_responses env q hist m1 m2
      = ⟨Except.ok (medicalMsg, medicalMsg), [Event.modCheck q]⟩ := by
  simp [get_responses, check_moderation, hmod, hmed]

/-- Witness for `medical_keyword_redirect` on the query
`"what medication should i take"` in the benign environment. -/
theorem medical_keyword_redirect_witness :
    env0.moderation "what medication should i take" = ModOutcome.safe
    ∧ hasMedicalKeyword "what medication should i take" = true
    ∧ get_responses env0 "what medication should i take" [] "GPT-4 (Expensive)"
        "GPT-3.5 (Cheap)"
      = ⟨Except.ok (medicalMsg, medicalMsg), [Event.modCheck "what medication should i take"]⟩ :=
  ⟨rfl, by decide,
    medical_keyword_redirect env0 "what medication should i take" [] "GPT-4 (Expensive)"
      "GPT-3.5 (Cheap)" rfl (by decide)⟩

/-- Claim C1 counterexample: the self-harm query `"I want to kill myself"`
(the spec's own crisis scenario), not flagged by the moderation service
and containing no medical keyword, is answered with the providers'
generated texts — not a fixed crisis message — and the trace contains a
document-store query, so retrieval and generation do happen. -/
theorem crisis_claim_counterexample :
    runSelfHarm.result = Except.ok ("alpha", "alpha")
    ∧ Event.docQuery "I want to kill myself" ∈ runSelfHarm.events := by
  exact ⟨rfl, by decide⟩

/-- Claim C1 amended: `get_responses` has no crisis/self-harm check at all —
its only short-circuits are the moderation gate and the medical-keyword
gate. Any query (in particular one containing a self-harm keyword) that
the moderation classifier does not flag and that contains no medical
keyword proceeds to document-store retrieval, and the returned pair is
whatever the provider pipeline produces. -/
theorem selfharm_query_proceeds_to_retrieval (env : Env) (q : String) (hist : List Turn)
    (m1 m2 : String) (hmod : env.moderation q = ModOutcome.safe)
    (hmed : hasMedicalKeyword q = false) :
    Event.docQuery q ∈ (get_responses env q hist m1 m2).events
    ∧ (get_responses env q hist m1 m2).result
      = (runProviders env q (sharedMessages env q hist) m1 m2).1 := by
  constructor <;> simp [get_responses, check_moderation, hmod, hmed]

/-- Witness for `selfharm_query_proceeds_to_retrieval` on the query
`"I want to kill myself"` in the benign environment. -/
theorem selfharm_query_proceeds_witness :
    env0.moderation "I want to kill myself" = ModOutcome.safe
    ∧ hasMedicalKeyword "I want to kill myself" = false
    ∧ (Event.docQuery "I want to kill myself"
        ∈ (get_responses env0 "I want to kill myself" [] "GPT-4 (Expensive)"
            "GPT-3.5 (Cheap)").events
      ∧ (get_responses env0 "I want to kill myself" [] "GPT-4 (Expensive)"
          "GPT-3.5 (Cheap)").result
        = (runProviders env0 "I want to kill myself"
            (sharedMessages env0 "I want to kill myself" []) "GPT-4 (Expensive)"
            "GPT-3.5 (Cheap)").1) :=
  ⟨rfl, by decide,
    selfharm_query_proceeds_to_retrieval env0 "I want to kill myself" [] "GPT-4 (Expensive)"
      "GPT-3.5 (Cheap)" rfl (by decide)⟩

/-- Claim C2 counterexample: in an environment where the `gpt-4` backend
raises and the second provider would succeed, `get_responses` does not
return a pair at all — the exception propagates and the whole call
fails with the adapter's error. -/
theorem one_slot_error_counterexample :
    (get_responses envPartial "hello there" [] "GPT-4 (Expensive)" "GPT-3.5 (Cheap)").result
      = Except.error "boom" := rfl

/-- Claim C2 amended: there is no per-provider error handling in
`get_responses` — when the first selected adapter raises, the exception
propagates out of the whole call (no pair is returned, no error text is
placed in a slot) and the second provider is never invoked, as the
trace shows. -/
theorem provider_error_aborts_turn (env : Env) (q : String) (hist : List Turn)
    (m1 m2 : String) (cfg1 : ProviderConfig) (e : String)
    (hmod : env.moderation q = ModOutcome.safe) (hmed : hasMedicalKeyword q = false)
    (hlook : available_models.lookup m1 = some cfg1)
    (hkind : cfg1.provider = ProviderKind.openai)
    (herr : env.openai cfg1 (sharedMessages env q hist) = Except.error e) :
    get_responses env q hist m1 m2
      = ⟨Except.error e,
         Event.modCheck q :: Event.docQuery q :: (historyLoopT env.moderation hist).2
           ++ [Event.openaiCall cfg1 (sharedMessages env q hist)]⟩ := by
  simp [get_responses, check_moderation, hmod, hmed, runProviders, hlook, invokeSlot,
    hkind, herr]

/-- Witness for `provider_error_aborts_turn`: the `gpt-4` slot raises
`"boom"` in `envPartial` while GPT-3.5 would succeed. -/
theorem provider_error_aborts_witness :
    envPartial.moderation "hello there" = ModOutcome.safe
    ∧ hasMedicalKeyword "hello there" = false
    ∧ available_models.lookup "GPT-4 (Expensive)"
        = some ⟨ProviderKind.openai, "gpt-4", 7⟩
    ∧ (⟨ProviderKind.openai, "gpt-4", 7⟩ : ProviderConfig).provider = ProviderKind.openai
    ∧ envPartial.openai ⟨ProviderKind.openai, "gpt-4", 7⟩
        (sharedMessages envPartial "hello there" []) = Except.error "boom"
    ∧ get_responses envPartial "hello there" [] "GPT-4 (Expensive)" "GPT-3.5 (Cheap)"
      = ⟨Except.error "boom",
         Event.modCheck "hello there" :: Event.docQuery "hello there"
           :: (historyLoopT envPartial.moderation []).2
           ++ [Event.openaiCall ⟨ProviderKind.openai, "gpt-4", 7⟩
                (sharedMessages envPartial "hello there" [])]⟩ :=
  ⟨rfl, by decide, by decide, rfl, rfl,
    provider_error_aborts_turn envPartial "hello there" [] "GPT-4 (Expensive)"
      "GPT-3.5 (Cheap)" ⟨ProviderKind.openai, "gpt-4", 7⟩ "boom" rfl (by decide)
      (by decide) rfl rfl⟩

/-- Claim C3 counterexample: when the moderation service raises,
`VAChatbot.check_moderation` — the copy `get_responses` actually calls —
returns a negative verdict (fail closed), and `get_responses` therefore
blocks the query with the refusal message instead of letting it
proceed. -/
theorem moderation_failopen_counterexample :
    (check_moderation (fun _ => ModOutcome.error "down") "hello").1 = false
    ∧ (get_responses envDown "hello" [] "GPT-4 (Expensive)" "GPT-3.5 (Cheap)").result
      = Except.ok (blockedMsg "Error checking moderation: down",
                   blockedMsg "Error checking moderation: down") :=
  ⟨rfl, rfl⟩

/-- Claim C3 amended: only `DeepEvaluator.check_moderation` fails open — on a
moderation-service exception it returns a permitting verdict carrying a
warning text — whereas `VAChatbot.check_moderation` fails closed,
returning a blocking verdict carrying the error text, so the
orchestrator treats the text as disallowed. -/
theorem moderation_error_split_verdicts (oracle : String → ModOutcome) (text e : String)
    (h : oracle text = ModOutcome.error e) :
    check_moderation oracle text = (false, "Error checking moderation: " ++ e)
    ∧ deep_check_moderation oracle text = (true, "Moderation check failed: " ++ e) := by
  constructor <;> simp [check_moderation, deep_check_moderation, h]

/-- Witness for `moderation_error_split_verdicts` on an oracle that
always raises `"down"`. -/
theorem moderation_error_split_witness :
    (fun _ : String => ModOutcome.error "down") "hello" = ModOutcome.error "down"
    ∧ (check_moderation (fun _ => ModOutcome.error "down") "hello"
        = (false, "Error checking moderation: " ++ "down")
      ∧ deep_check_moderation (fun _ => ModOutcome.error "down") "hello"
        = (true, "Moderation check failed: " ++ "down")) :=
  ⟨rfl, moderation_error_split_verdicts (fun _ => ModOutcome.error "down") "hello" "down" rfl⟩

/-- Claim C5 counterexample: in a turn with a retrieved document and a prior
exchange, the OpenAI slot receives the full shared message list (system
instructions + context, the history turns, the query) while the Claude
slot receives a single user message holding only the bare query — the
two provider kinds are not sent the same content. -/
theorem shared_content_counterexample :
    (claudePayloads runC5.events).map (fun ms => ms.map ClaudeMsg.content)
      = [["what is the gi bill"]]
    ∧ (openaiPayloads runC5.events).map (fun ms => ms.map msgContent)
      = [(sharedMessages envC5 "what is the gi bill" histC5).map msgContent]
    ∧ ((sharedMessages envC5 "what is the gi bill" histC5).map msgContent).length = 4
    ∧ "h1" ∈ (sharedMessages envC5 "what is the gi bill" histC5).map msgContent
    ∧ "h1" ∉ (["what is the gi bill"] : List String) :=
  ⟨by decide, rfl, by decide, by decide, by decide⟩

/-- Claim C5 amended: after the policy gate passes, only OpenAI-kind configs
are invoked with the shared message list (system instructions plus
assembled context, role-mapped filtered history, then the query);
Claude-kind configs are invoked with a single `{"role": "user"}`
message carrying only the current query, so the system instructions,
the retrieval context and the prior history are not forwarded to
Claude adapters. -/
theorem provider_dispatch_payloads (env : Env) (q : String) (hist : List Turn)
    (m1 m2 : String) (cfg1 cfg2 : ProviderConfig) (r1 : String) (c2 : Content)
    (hmod : env.moderation q = ModOutcome.safe) (hmed : hasMedicalKeyword q = false)
    (hl1 : available_models.lookup m1 = some cfg1)
    (hk1 : cfg1.provider = ProviderKind.openai)
    (hl2 : available_models.lookup m2 = some cfg2)
    (hk2 : cfg2.provider = ProviderKind.claude)
    (ho : env.openai cfg1 (sharedMessages env q hist) = Except.ok r1)
    (hc : env.claude cfg2 [ClaudeMsg.mk "user" q] = Except.ok c2) :
    get_responses env q hist m1 m2
      = ⟨Except.ok (r1, extract_claude_text c2),
         Event.modCheck q :: Event.docQuery q :: (historyLoopT env.moderation hist).2
           ++ [Event.openaiCall cfg1 (sharedMessages env q hist),
               Event.claudeCall cfg2 [ClaudeMsg.mk "user" q],
               Event.modCheck r1, Event.modCheck (extract_claude_text c2)]⟩ := by
  simp [get_responses, check_moderation, hmod, hmed, runProviders, hl1, hl2, invokeSlot,
    hk1, hk2, ho, hc]

/-- Witness for `provider_dispatch_payloads` on the `runC5` turn: GPT-4
paired with Claude-3-Opus, one retrieved document, a two-turn
history. -/
theorem provider_dispatch_payloads_witness :
    envC5.moderation "what is the gi bill" = ModOutcome.safe
    ∧ hasMedicalKeyword "what is the gi bill" = false
    ∧ available_models.lookup "GPT-4 (Expensive)"
        = some ⟨ProviderKind.openai, "gpt-4", 7⟩
    ∧ available_models.lookup "Claude-3-Opus (Expensive)"
        = some ⟨ProviderKind.claude, "claude-3-opus-20240229", 7⟩
    ∧ get_responses envC5 "what is the gi bill" histC5 "GPT-4 (Expensive)"
        "Claude-3-Opus (Expensive)"
      = ⟨Except.ok ("alpha", extract_claude_text (Content.str "beta")),
         Event.modCheck "what is the gi bill" :: Event.docQuery "what is the gi bill"
           :: (historyLoopT envC5.moderation histC5).2
           ++ [Event.openaiCall ⟨ProviderKind.openai, "gpt-4", 7⟩
                (sharedMessages envC5 "what is the gi bill" histC5),
               Event.claudeCall ⟨ProviderKind.claude, "claude-3-opus-20240229", 7⟩
                [ClaudeMsg.mk "user" "what is the gi bill"],
               Event.modCheck "alpha",
               Event.modCheck (extract_claude_text (Content.str "beta"))]⟩ :=
  ⟨rfl, by decide, by decide, by decide,
    provider_dispatch_payloads envC5 "what is the gi bill" histC5 "GPT-4 (Expensive)"
      "Claude-3-Opus (Expensive)" ⟨ProviderKind.openai, "gpt-4", 7⟩
      ⟨ProviderKind.claude, "claude-3-opus-20240229", 7⟩ "alpha" (Content.str "beta")
      rfl (by decide) (by decide) rfl (by decide) rfl rfl rfl⟩

end VAChat
